import Mathlib

/-!
# Loan-Management ledger and accrual calculator: a shallow embedding

This file embeds the data model and the store/calculator operations of
`src/loan_app.py` (a single-file loan-management application backed by a
SQLite store) and proves properties of them.

Modelling conventions:
* Dates are integer day numbers; Python's `(d2 - d1).days` becomes `d2 - d1`.
* Monetary amounts and rates are rationals; Python's `round(x, 2)` (the
  runtime default, round-half-to-even) is modelled by `round2`.
* The SQLite database is a `DB` record: the two tables as lists of rows,
  the AUTOINCREMENT counters, and a logical clock supplying the
  `CURRENT_TIMESTAMP` defaults.
* Each store operation is a pure function from `DB` to its Python return
  value paired with the new `DB`.  In the source the operations return
  `True` on commit; no exception path is reachable in the model, so they
  return `true` together with the updated state.
-/

namespace LoanApp

/-- Round-half-to-even of a rational to an integer (banker's rounding, the
behaviour of Python's builtin `round` on the runtime default). -/
def rhe (q : ℚ) : ℤ :=
  if Int.fract q < 1/2 then ⌊q⌋
  else if (1:ℚ)/2 < Int.fract q then ⌊q⌋ + 1
  else if ⌊q⌋ % 2 = 0 then ⌊q⌋ else ⌊q⌋ + 1

/-- Python's `round(q, 2)`: round half to even at two decimal places. -/
def round2 (q : ℚ) : ℚ := (rhe (q * 100) : ℚ) / 100

/-- `calculate_interest` (src/loan_app.py lines 42-45): simple interest for
the whole-day span from `start_date` to `end_date`, rounded to 2 decimals.
The day count is NOT clamped at zero. -/
def calculate_interest (amount rate : ℚ) (start_date end_date : ℤ) : ℚ :=
  let days : ℤ := end_date - start_date
  let interest : ℚ := (amount * rate * (days : ℚ)) / (100 * 365)
  round2 interest

/-- `calculate_days_remaining` (src/loan_app.py lines 47-49); the source
reads `date.today()`, passed here as the `today` argument. -/
def calculate_days_remaining (end_date today : ℤ) : ℤ :=
  max (end_date - today) 0

/-- The `status_color` classification of src/loan_app.py line 100:
`'red' if x <= 30 else 'yellow' if x <= 90 else 'green'`.  The dashboard
(lines 219-229) names the same three buckets Critical / Warning / Healthy. -/
def status_color_of (x : ℤ) : String :=
  if x ≤ 30 then "red" else if x ≤ 90 then "yellow" else "green"

/-- A row of the `loans` table (schema in `init_db`, lines 13-25). -/
structure Loan where
  id : Nat
  farmer_name : String
  father_name : String
  loan_amount : ℚ
  interest_rate : ℚ
  start_date : ℤ
  end_date : ℤ
  loan_status : String
  created_at : Nat
deriving DecidableEq, Repr

/-- A row of the `loan_history` table (schema in `init_db`, lines 28-37). -/
structure HistoryEntry where
  id : Nat
  loan_id : Nat
  action : String
  action_timestamp : Nat
  details : String
deriving DecidableEq, Repr

/-- The SQLite database `farmer_loans.db`: both tables, the AUTOINCREMENT
counters, and a logical clock for `CURRENT_TIMESTAMP`. -/
structure DB where
  loans : List Loan
  history : List HistoryEntry
  next_loan_id : Nat
  next_history_id : Nat
  clock : Nat
deriving DecidableEq, Repr

/-- Decimal rendering of an amount, standing in for Python's
`f'₹{amount:,.2f}'` formatting.  The exact digit grouping is presentation
detail; no property in this file depends on the rendered text of amounts. -/
def formatAmount (q : ℚ) : String := toString (round2 q)

/-- `add_loan` (src/loan_app.py lines 51-72): INSERT the loan row (status
defaults to `'Active'`), then INSERT a CREATE history entry for the fresh
AUTOINCREMENT id, and commit, returning `True`. -/
def add_loan (farmer_name father_name : String) (amount rate : ℚ)
    (start_date end_date : ℤ) (db : DB) : Bool × DB :=
  let loan : Loan :=
    ⟨db.next_loan_id, farmer_name, father_name, amount, rate,
      start_date, end_date, "Active", db.clock⟩
  let entry : HistoryEntry :=
    ⟨db.next_history_id, db.next_loan_id, "CREATE", db.clock,
      "Loan created for " ++ farmer_name ++ " (s/o " ++ father_name ++
        ") with amount ₹" ++ formatAmount amount⟩
  (true,
    { loans := db.loans ++ [loan]
      history := db.history ++ [entry]
      next_loan_id := db.next_loan_id + 1
      next_history_id := db.next_history_id + 1
      clock := db.clock + 1 })

/-- `delete_loan` (src/loan_app.py lines 120-135): `UPDATE loans SET
status='Inactive' WHERE id=?` (no existence check; zero matched rows is not
an error), then INSERT a DELETE history entry, commit, return `True`. -/
def delete_loan (loan_id : Nat) (reason : String) (db : DB) : Bool × DB :=
  let updated := db.loans.map (fun l =>
    if l.id = loan_id then { l with loan_status := "Inactive" } else l)
  let entry : HistoryEntry :=
    ⟨db.next_history_id, loan_id, "DELETE", db.clock,
      "Loan marked as inactive. Reason: " ++ reason⟩
  (true,
    { db with
      loans := updated
      history := db.history ++ [entry]
      next_history_id := db.next_history_id + 1
      clock := db.clock + 1 })

/-- `update_loan_end_date` (src/loan_app.py lines 137-152): `UPDATE loans
SET end_date=? WHERE id=?` (no existence check), then INSERT an UPDATE
history entry, commit, return `True`. -/
def update_loan_end_date (loan_id : Nat) (new_end_date : ℤ) (reason : String)
    (db : DB) : Bool × DB :=
  let updated := db.loans.map (fun l =>
    if l.id = loan_id then { l with end_date := new_end_date } else l)
  let entry : HistoryEntry :=
    ⟨db.next_history_id, loan_id, "UPDATE", db.clock,
      "End date updated to " ++ toString new_end_date ++ ". Reason: " ++ reason⟩
  (true,
    { db with
      loans := updated
      history := db.history ++ [entry]
      next_history_id := db.next_history_id + 1
      clock := db.clock + 1 })

/-- One row of the DataFrame built by `get_all_loans` (src/loan_app.py
lines 74-102): the loan columns plus the computed columns. -/
structure LoanView where
  row : Loan
  current_interest : ℚ
  total_amount : ℚ
  days_remaining : ℤ
  status_color : String
deriving DecidableEq, Repr

/-- `get_all_loans` (src/loan_app.py lines 74-102): `SELECT * FROM loans
WHERE status='Active'`, then attach `current_interest` (interest from
`start_date` to `today`), `total_amount`, `days_remaining` and
`status_color`. -/
def get_all_loans (today : ℤ) (db : DB) : List LoanView :=
  (db.loans.filter (fun l => l.loan_status = "Active")).map (fun l =>
    let ci := calculate_interest l.loan_amount l.interest_rate l.start_date today
    let dr := calculate_days_remaining l.end_date today
    ⟨l, ci, l.loan_amount + ci, dr, status_color_of dr⟩)

/-- One result row of the `get_loan_history` query. -/
structure HistoryRow where
  action_timestamp : Nat
  farmer_name : String
  father_name : String
  action : String
  details : String
deriving DecidableEq, Repr

/-- The row the inner join of `get_loan_history` builds from a history
entry `h` and its matching loan `l`. -/
def mkHistoryRow (h : HistoryEntry) (l : Loan) : HistoryRow :=
  ⟨h.action_timestamp, l.farmer_name, l.father_name, h.action, h.details⟩

/-- The inner join `FROM loan_history h JOIN loans l ON h.loan_id = l.id`
of `get_loan_history`, before ordering. -/
def joinHistory (db : DB) : List HistoryRow :=
  db.history.flatMap (fun h =>
    (db.loans.filter (fun l => h.loan_id = l.id)).map (mkHistoryRow h))

/-- `get_loan_history` (src/loan_app.py lines 104-118): the inner join of
`loan_history` with `loans`, ordered by `action_timestamp DESC`. -/
def get_loan_history (db : DB) : List HistoryRow :=
  (joinHistory db).insertionSort (fun a b => b.action_timestamp ≤ a.action_timestamp)

/-- The "Add New Loan" form handler of `main` (src/loan_app.py lines
283-293): validate first — end date after start date, positive amount,
non-empty names — and only then call `add_loan`.  Returns the error
message shown by `st.error`, if any, together with the resulting state. -/
def submit_add_loan (farmer_name father_name : String) (loan_amount interest_rate : ℚ)
    (start_date end_date : ℤ) (db : DB) : Option String × DB :=
  if end_date ≤ start_date then
    (some "End date must be after start date!", db)
  else if loan_amount ≤ 0 then
    (some "Loan amount must be greater than 0!", db)
  else if farmer_name = "" ∨ father_name = "" then
    (some "Farmer name and father's name are required!", db)
  else
    (none, (add_loan farmer_name father_name loan_amount interest_rate
      start_date end_date db).2)

/-! ## Sample states used by witnesses -/

/-- A freshly initialised database: both tables empty. -/
def dbEmpty : DB := ⟨[], [], 1, 1, 0⟩

/-- A sample loan row. -/
def loan1 : Loan := ⟨1, "Asha", "Devi", 10000, 10, 0, 365, "Active", 0⟩

/-- A database holding `loan1` and its CREATE history entry. -/
def db1 : DB := ⟨[loan1], [⟨1, 1, "CREATE", 0, "created"⟩], 2, 2, 1⟩

/-! ## Properties of the rounding function -/

lemma rhe_floor_le (q : ℚ) : ⌊q⌋ ≤ rhe q := by
  unfold rhe; split_ifs <;> omega

lemma rhe_le_floor_add_one (q : ℚ) : rhe q ≤ ⌊q⌋ + 1 := by
  unfold rhe; split_ifs <;> omega

lemma rhe_mono {a b : ℚ} (h : a ≤ b) : rhe a ≤ rhe b := by
  have hf : ⌊a⌋ ≤ ⌊b⌋ := Int.floor_le_floor h
  rcases lt_or_eq_of_le hf with hlt | heq
  · have h1 := rhe_le_floor_add_one a
    have h2 := rhe_floor_le b
    omega
  · have hfr : Int.fract a ≤ Int.fract b := by
      unfold Int.fract
      rw [heq]
      linarith
    unfold rhe
    rw [heq]
    split_ifs <;> first | omega | (exfalso; linarith)

lemma rhe_zero : rhe 0 = 0 := by norm_num [rhe]

lemma round2_mono {a b : ℚ} (h : a ≤ b) : round2 a ≤ round2 b := by
  have h1 : rhe (a * 100) ≤ rhe (b * 100) := rhe_mono (by linarith)
  have h2 : ((rhe (a * 100) : ℤ) : ℚ) ≤ ((rhe (b * 100) : ℤ) : ℚ) := by
    exact_mod_cast h1
  unfold round2
  linarith

lemma round2_nonneg {q : ℚ} (h : 0 ≤ q) : 0 ≤ round2 q := by
  have h1 : rhe 0 ≤ rhe (q * 100) := rhe_mono (by linarith)
  rw [rhe_zero] at h1
  have h2 : (0:ℚ) ≤ ((rhe (q * 100) : ℤ) : ℚ) := by exact_mod_cast h1
  unfold round2
  exact div_nonneg h2 (by norm_num)

/-! ## Claim theorems -/

/-- C1 (counterexample): `calculate_interest` does not clamp the day count
at zero; for a loan starting at day 10 evaluated as of day 0 it returns a
strictly negative interest (−0.27) even though principal and rate are
non-negative, contradicting the claim that the result is never negative
and that a negative day span is treated as 0 days. -/
theorem interest_negative_when_future_dated :
    calculate_interest 100 10 10 0 < 0 := by
  norm_num [calculate_interest, round2, rhe, Int.fract]

/-- C1 (amended): `calculate_interest` returns
`round(P * R * daysElapsed / (100 * 365), 2)` where
`daysElapsed = asOfDate − startDate` is NOT clamped at zero and may be
negative; the result is non-negative for non-negative principal and rate
only when the as-of date is not before the start date. -/
theorem interest_unclamped_formula (P R : ℚ) (s d : ℤ) :
    calculate_interest P R s d = round2 (P * R * ((d - s : ℤ) : ℚ) / (100 * 365)) ∧
    (0 ≤ P → 0 ≤ R → s ≤ d → 0 ≤ calculate_interest P R s d) := by
  constructor
  · rfl
  · intro hP hR hsd
    have hdays : (0:ℚ) ≤ ((d - s : ℤ) : ℚ) := by
      have : (0:ℤ) ≤ d - s := by omega
      exact_mod_cast this
    show 0 ≤ round2 _
    exact round2_nonneg (div_nonneg (mul_nonneg (mul_nonneg hP hR) hdays) (by norm_num))

/-- Witness for C1's amended theorem at principal 10000, rate 10%,
start day 0, as-of day 182: the scenario of spec §8, interest 498.63. -/
theorem interest_unclamped_formula_witness :
    (calculate_interest 10000 10 0 182 =
      round2 (10000 * 10 * ((182 - 0 : ℤ) : ℚ) / (100 * 365)) ∧
      0 ≤ calculate_interest 10000 10 0 182) ∧
    calculate_interest 10000 10 0 182 = 49863/100 := by
  refine ⟨⟨(interest_unclamped_formula 10000 10 0 182).1,
    (interest_unclamped_formula 10000 10 0 182).2 (by norm_num) (by norm_num)
      (by norm_num)⟩, ?_⟩
  norm_num [calculate_interest, round2, rhe, Int.fract]

/-- C2: the "Add New Loan" handler validates before calling `add_loan`:
whenever the end date is equal to or before the start date it reports the
validation error and returns the database unchanged — no loan row and no
history entry is written. -/
theorem submit_add_loan_rejects_end_not_after_start
    (fn ftn : String) (amt rt : ℚ) (s e : ℤ) (db : DB) (h : e ≤ s) :
    submit_add_loan fn ftn amt rt s e db =
      (some "End date must be after start date!", db) := by
  unfold submit_add_loan
  rw [if_pos h]

/-- Witness for C2 at equal start and end dates on the empty database. -/
theorem submit_add_loan_rejects_end_not_after_start_witness :
    submit_add_loan "Asha" "Devi" 10000 10 100 100 dbEmpty =
      (some "End date must be after start date!", dbEmpty) :=
  submit_add_loan_rejects_end_not_after_start "Asha" "Devi" 10000 10 100 100
    dbEmpty (by decide)

/-- C5: each of the three mutating operations succeeds and appends exactly
one history entry, tagged CREATE, UPDATE or DELETE respectively. -/
theorem mutations_append_one_history_entry
    (db : DB) (fn ftn r1 r2 : String) (amt rt : ℚ) (s e ned : ℤ) (lid : Nat) :
    ((add_loan fn ftn amt rt s e db).1 = true ∧
      ∃ h1, (add_loan fn ftn amt rt s e db).2.history = db.history ++ [h1] ∧
        h1.action = "CREATE") ∧
    ((update_loan_end_date lid ned r1 db).1 = true ∧
      ∃ h2, (update_loan_end_date lid ned r1 db).2.history = db.history ++ [h2] ∧
        h2.action = "UPDATE") ∧
    ((delete_loan lid r2 db).1 = true ∧
      ∃ h3, (delete_loan lid r2 db).2.history = db.history ++ [h3] ∧
        h3.action = "DELETE") :=
  ⟨⟨rfl, _, rfl, rfl⟩, ⟨rfl, _, rfl, rfl⟩, ⟨rfl, _, rfl, rfl⟩⟩

/-- C8: `calculate_days_remaining` equals `max(endDate − asOfDate, 0)`, is
never negative, and is 0 whenever the as-of date is past the end date. -/
theorem days_remaining_clamped (e t : ℤ) :
    calculate_days_remaining e t = max (e - t) 0 ∧
    0 ≤ calculate_days_remaining e t ∧
    (e < t → calculate_days_remaining e t = 0) := by
  refine ⟨rfl, le_max_right _ _, fun h => ?_⟩
  unfold calculate_days_remaining
  exact max_eq_right (by omega)

/-- Witness for C8 with the as-of date 4 days past the end date. -/
theorem days_remaining_clamped_witness :
    calculate_days_remaining 5 9 = max (5 - 9) 0 ∧
    0 ≤ calculate_days_remaining 5 9 ∧
    ((5:ℤ) < 9 → calculate_days_remaining 5 9 = 0) ∧
    calculate_days_remaining 5 9 = 0 :=
  ⟨(days_remaining_clamped 5 9).1, (days_remaining_clamped 5 9).2.1,
    (days_remaining_clamped 5 9).2.2,
    (days_remaining_clamped 5 9).2.2 (by decide)⟩

/-- C9: for non-negative principal and rate, `calculate_interest` is
monotonically non-decreasing in the as-of date. -/
theorem interest_monotone_in_as_of_date (P R : ℚ) (s d1 d2 : ℤ)
    (hP : 0 ≤ P) (hR : 0 ≤ R) (hd : d1 ≤ d2) :
    calculate_interest P R s d1 ≤ calculate_interest P R s d2 := by
  show round2 _ ≤ round2 _
  apply round2_mono
  have hcast : ((d1 - s : ℤ) : ℚ) ≤ ((d2 - s : ℤ) : ℚ) := by
    have : d1 - s ≤ d2 - s := by omega
    exact_mod_cast this
  have hnum : P * R * ((d1 - s : ℤ) : ℚ) ≤ P * R * ((d2 - s : ℤ) : ℚ) :=
    mul_le_mul_of_nonneg_left hcast (mul_nonneg hP hR)
  have h100 : (0:ℚ) < 100 * 365 := by norm_num
  exact (div_le_div_iff_of_pos_right h100).2 hnum

/-- Witness for C9 at principal 10000, rate 10, start 0, as-of dates 100
and 200. -/
theorem interest_monotone_in_as_of_date_witness :
    calculate_interest 10000 10 0 100 ≤ calculate_interest 10000 10 0 200 :=
  interest_monotone_in_as_of_date 10000 10 0 100 200 (by norm_num)
    (by norm_num) (by decide)

/-- C7: for every non-negative day count, the risk classification of
src/loan_app.py line 100 assigns exactly one bucket — red (Critical) iff
the count is ≤ 30, yellow (Warning) iff it is in 31–90, green (Healthy)
iff it exceeds 90 — with no overlap or gap at 30, 31, 90, 91. -/
theorem risk_bucket_partition (x : ℤ) (hx : 0 ≤ x) :
    (status_color_of x = "red" ↔ x ≤ 30) ∧
    (status_color_of x = "yellow" ↔ 31 ≤ x ∧ x ≤ 90) ∧
    (status_color_of x = "green" ↔ 90 < x) := by
  unfold status_color_of
  split_ifs with h1 h2
  · exact ⟨⟨fun _ => h1, fun _ => rfl⟩,
      ⟨fun h => absurd h (by decide), fun h => absurd h1 (by omega)⟩,
      ⟨fun h => absurd h (by decide), fun h => absurd h1 (by omega)⟩⟩
  · exact ⟨⟨fun h => absurd h (by decide), fun h => absurd h1 (by omega)⟩,
      ⟨fun _ => ⟨by omega, h2⟩, fun _ => rfl⟩,
      ⟨fun h => absurd h (by decide), fun h => absurd h2 (by omega)⟩⟩
  · exact ⟨⟨fun h => absurd h (by decide), fun h => absurd h1 (by omega)⟩,
      ⟨fun h => absurd h (by decide), fun h => absurd h2 (by omega)⟩,
      ⟨fun _ => by omega, fun _ => rfl⟩⟩

/-- Witness for C7 at the boundary value 31 (Warning bucket). -/
theorem risk_bucket_partition_witness :
    (status_color_of 31 = "red" ↔ (31:ℤ) ≤ 30) ∧
    (status_color_of 31 = "yellow" ↔ (31:ℤ) ≤ 31 ∧ (31:ℤ) ≤ 90) ∧
    (status_color_of 31 = "green" ↔ (90:ℤ) < 31) :=
  risk_bucket_partition 31 (by decide)

/-! ## Helper lemmas about the store operations -/

/-- A `WHERE id = ?` update over a list of loans none of which carries that
id is the identity. -/
lemma update_map_id (loans : List Loan) (lid : Nat) (g : Loan → Loan)
    (habs : ∀ l ∈ loans, l.id ≠ lid) :
    loans.map (fun l => if l.id = lid then g l else l) = loans := by
  induction loans with
  | nil => rfl
  | cons a t ih =>
    simp only [List.map_cons]
    rw [if_neg (habs a (List.mem_cons_self a t)),
      ih (fun l hl => habs l (List.mem_cons_of_mem a hl))]

/-- Membership in the inner join of `get_loan_history`. -/
lemma mem_joinHistory {db : DB} {r : HistoryRow} :
    r ∈ joinHistory db ↔
      ∃ h ∈ db.history, ∃ l ∈ db.loans, h.loan_id = l.id ∧ r = mkHistoryRow h l := by
  simp only [joinHistory, List.mem_flatMap, List.mem_map, List.mem_filter,
    decide_eq_true_eq]
  constructor
  · rintro ⟨h, hh, l, ⟨hl, hid⟩, hr⟩
    exact ⟨h, hh, l, hl, hid, hr.symm⟩
  · rintro ⟨h, hh, l, hl, hid, hr⟩
    exact ⟨h, hh, l, ⟨hl, hid⟩, hr.symm⟩

/-- Membership in `get_loan_history` is membership in the join. -/
lemma mem_get_loan_history {db : DB} {r : HistoryRow} :
    r ∈ get_loan_history db ↔ r ∈ joinHistory db :=
  List.mem_insertionSort _

/-- C3 (counterexample): on the empty database, `update_loan_end_date` for
the absent loan id 1 does not fail with NotFoundError — it returns success
and does not leave the store unchanged: it appends an UPDATE HistoryEntry. -/
theorem update_end_date_missing_id_still_writes :
    (update_loan_end_date 1 400 "extension" dbEmpty).1 = true ∧
    (update_loan_end_date 1 400 "extension" dbEmpty).2.history ≠ [] ∧
    (update_loan_end_date 1 400 "extension" dbEmpty).2.history.length = 1 := by
  refine ⟨rfl, ?_, rfl⟩
  simp [update_loan_end_date, dbEmpty]

/-- C3 (amended): for a loan id absent from the store,
`update_loan_end_date` still reports success, leaves the loans table
unchanged, and appends one UPDATE HistoryEntry referencing the absent id. -/
theorem update_end_date_missing_id_behavior
    (db : DB) (lid : Nat) (ned : ℤ) (reason : String)
    (habs : ∀ l ∈ db.loans, l.id ≠ lid) :
    (update_loan_end_date lid ned reason db).1 = true ∧
    (update_loan_end_date lid ned reason db).2.loans = db.loans ∧
    ∃ e, (update_loan_end_date lid ned reason db).2.history = db.history ++ [e] ∧
      e.action = "UPDATE" ∧ e.loan_id = lid := by
  exact ⟨rfl, update_map_id db.loans lid _ habs, _, rfl, rfl, rfl⟩

/-- Witness for C3's amended theorem: updating the absent id 2 on `db1`. -/
theorem update_end_date_missing_id_behavior_witness :
    (update_loan_end_date 2 400 "extension" db1).1 = true ∧
    (update_loan_end_date 2 400 "extension" db1).2.loans = db1.loans ∧
    ∃ e, (update_loan_end_date 2 400 "extension" db1).2.history = db1.history ++ [e] ∧
      e.action = "UPDATE" ∧ e.loan_id = 2 :=
  update_end_date_missing_id_behavior db1 2 400 "extension" (by decide)

/-- C4 (counterexample): on the empty database, `delete_loan` for the
absent loan id 1 does not fail with NotFoundError — it returns success and
writes a DELETE HistoryEntry. -/
theorem delete_loan_missing_id_still_writes :
    (delete_loan 1 "gone" dbEmpty).1 = true ∧
    (delete_loan 1 "gone" dbEmpty).2.history ≠ [] ∧
    (delete_loan 1 "gone" dbEmpty).2.history.length = 1 := by
  refine ⟨rfl, ?_, rfl⟩
  simp [delete_loan, dbEmpty]

/-- C4 (amended): `delete_loan` always reports success and appends exactly
one DELETE HistoryEntry containing the given reason; every stored loan
carrying the given id has its status set to Inactive, but for an absent id
the loans table is simply left unchanged — no NotFoundError is raised and
the history write still happens. -/
theorem delete_loan_behavior (db : DB) (lid : Nat) (reason : String) :
    (delete_loan lid reason db).1 = true ∧
    (∃ e, (delete_loan lid reason db).2.history = db.history ++ [e] ∧
      e.action = "DELETE" ∧ e.loan_id = lid ∧
      e.details = "Loan marked as inactive. Reason: " ++ reason) ∧
    (∀ l ∈ (delete_loan lid reason db).2.loans, l.id = lid →
      l.loan_status = "Inactive") ∧
    (∀ l ∈ db.loans, l.id ≠ lid → l ∈ (delete_loan lid reason db).2.loans) ∧
    ((∀ l ∈ db.loans, l.id ≠ lid) → (delete_loan lid reason db).2.loans = db.loans) := by
  refine ⟨rfl, ⟨_, rfl, rfl, rfl, rfl⟩, ?_, ?_, fun habs => update_map_id db.loans lid _ habs⟩
  · intro l hl hid
    simp only [delete_loan, List.mem_map] at hl
    obtain ⟨a, ha, rfl⟩ := hl
    by_cases hc : a.id = lid
    · rw [if_pos hc]
    · rw [if_neg hc] at hid ⊢
      exact absurd hid hc
  · intro l hl hne
    simp only [delete_loan, List.mem_map]
    exact ⟨l, hl, if_neg hne⟩

/-- Witness for C4's amended theorem: deleting loan id 1 on `db1`. -/
theorem delete_loan_behavior_witness :
    (delete_loan 1 "repaid" db1).1 = true ∧
    (∃ e, (delete_loan 1 "repaid" db1).2.history = db1.history ++ [e] ∧
      e.action = "DELETE" ∧ e.loan_id = 1 ∧
      e.details = "Loan marked as inactive. Reason: " ++ "repaid") ∧
    (∀ l ∈ (delete_loan 1 "repaid" db1).2.loans, l.id = 1 →
      l.loan_status = "Inactive") ∧
    (∀ l ∈ db1.loans, l.id ≠ 1 → l ∈ (delete_loan 1 "repaid" db1).2.loans) ∧
    ((∀ l ∈ db1.loans, l.id ≠ 1) → (delete_loan 1 "repaid" db1).2.loans = db1.loans) :=
  delete_loan_behavior db1 1 "repaid"

/-- The loans table after `delete_loan`: the `WHERE id = ?` status update. -/
lemma delete_loan_loans (db : DB) (lid : Nat) (reason : String) :
    (delete_loan lid reason db).2.loans =
      db.loans.map (fun l =>
        if l.id = lid then { l with loan_status := "Inactive" } else l) := rfl

/-- The history table after `delete_loan`: one appended DELETE entry. -/
lemma delete_loan_history (db : DB) (lid : Nat) (reason : String) :
    (delete_loan lid reason db).2.history =
      db.history ++ [⟨db.next_history_id, lid, "DELETE", db.clock,
        "Loan marked as inactive. Reason: " ++ reason⟩] := rfl

/-- The loans table after `update_loan_end_date`. -/
lemma update_loan_end_date_loans (db : DB) (lid : Nat) (ned : ℤ) (reason : String) :
    (update_loan_end_date lid ned reason db).2.loans =
      db.loans.map (fun l =>
        if l.id = lid then { l with end_date := ned } else l) := rfl

/-- The history table after `update_loan_end_date`. -/
lemma update_loan_end_date_history (db : DB) (lid : Nat) (ned : ℤ) (reason : String) :
    (update_loan_end_date lid ned reason db).2.history =
      db.history ++ [⟨db.next_history_id, lid, "UPDATE", db.clock,
        "End date updated to " ++ toString ned ++ ". Reason: " ++ reason⟩] := rfl

/-- The status flip of `delete_loan` never changes a loan's id. -/
lemma inactive_update_id (l : Loan) (lid : Nat) :
    (if l.id = lid then { l with loan_status := "Inactive" } else l).id = l.id := by
  split_ifs <;> rfl

/-- The status flip of `delete_loan` never changes the borrower names, so
it builds the same joined history row. -/
lemma mkHistoryRow_inactive_update (h : HistoryEntry) (l : Loan) (lid : Nat) :
    mkHistoryRow h (if l.id = lid then { l with loan_status := "Inactive" } else l) =
      mkHistoryRow h l := by
  split_ifs <;> rfl

/-- C6: soft-deleting a stored loan removes it from the active-loans
listing, while every history row retrievable before the deletion is still
retrievable afterwards — in particular the deleted loan's own entries stay
joined, because the loan row is never physically removed (the table keeps
exactly the same loan ids). -/
theorem soft_delete_hides_loan_keeps_history
    (db : DB) (today : ℤ) (lid : Nat) (reason : String)
    (l0 : Loan) (hmem : l0 ∈ db.loans) (hid0 : l0.id = lid) :
    (∀ v ∈ get_all_loans today (delete_loan lid reason db).2, v.row.id ≠ lid) ∧
    (∀ r ∈ get_loan_history db, r ∈ get_loan_history (delete_loan lid reason db).2) ∧
    (∀ h ∈ db.history, h.loan_id = lid →
      ∃ r ∈ get_loan_history (delete_loan lid reason db).2,
        r.action = h.action ∧ r.details = h.details ∧
        r.action_timestamp = h.action_timestamp) ∧
    (delete_loan lid reason db).2.loans.map Loan.id = db.loans.map Loan.id := by
  refine ⟨?_, ?_, ?_, ?_⟩
  · intro v hv
    simp only [get_all_loans, delete_loan_loans, List.mem_map, List.mem_filter,
      decide_eq_true_eq] at hv
    obtain ⟨l, ⟨hl, hstat⟩, rfl⟩ := hv
    obtain ⟨a, _, rfl⟩ := hl
    by_cases hc : a.id = lid
    · rw [if_pos hc] at hstat
      simp at hstat
    · rw [if_neg hc] at hstat ⊢
      exact hc
  · intro r hr
    rw [mem_get_loan_history, mem_joinHistory] at hr
    rw [mem_get_loan_history, mem_joinHistory]
    obtain ⟨h, hh, l, hl, hid2, rfl⟩ := hr
    refine ⟨h, ?_, (if l.id = lid then { l with loan_status := "Inactive" } else l),
      ?_, ?_, ?_⟩
    · rw [delete_loan_history]
      exact List.mem_append_left _ hh
    · rw [delete_loan_loans]
      exact List.mem_map_of_mem _ hl
    · rw [inactive_update_id]
      exact hid2
    · rw [mkHistoryRow_inactive_update]
  · intro h hh hlid
    refine ⟨mkHistoryRow h
      (if l0.id = lid then { l0 with loan_status := "Inactive" } else l0), ?_, ?_⟩
    · rw [mem_get_loan_history, mem_joinHistory]
      refine ⟨h, ?_, _, ?_, ?_, rfl⟩
      · rw [delete_loan_history]
        exact List.mem_append_left _ hh
      · rw [delete_loan_loans]
        exact List.mem_map_of_mem _ hmem
      · rw [inactive_update_id]
        rw [hlid, hid0]
    · exact ⟨rfl, rfl, rfl⟩
  · rw [delete_loan_loans, List.map_map]
    exact List.map_congr_left (fun l _ => inactive_update_id l lid)

/-- Witness for C6: soft-deleting `loan1` from `db1`. -/
theorem soft_delete_hides_loan_keeps_history_witness :
    (∀ v ∈ get_all_loans 100 (delete_loan 1 "repaid" db1).2, v.row.id ≠ 1) ∧
    (∀ r ∈ get_loan_history db1, r ∈ get_loan_history (delete_loan 1 "repaid" db1).2) ∧
    (∀ h ∈ db1.history, h.loan_id = 1 →
      ∃ r ∈ get_loan_history (delete_loan 1 "repaid" db1).2,
        r.action = h.action ∧ r.details = h.details ∧
        r.action_timestamp = h.action_timestamp) ∧
    (delete_loan 1 "repaid" db1).2.loans.map Loan.id = db1.loans.map Loan.id :=
  soft_delete_hides_loan_keeps_history db1 100 1 "repaid" loan1
    (by simp [db1]) (by decide)

/-- C10: `get_loan_history` is an inner join — every returned row comes
from a history entry whose `loan_id` matches a stored loan — and the
orphan entries that `delete_loan` and `update_loan_end_date` append when
called with an id absent from the loans table are silently omitted from
every `get_loan_history` result, although they are really written. -/
theorem history_join_omits_orphans
    (db : DB) (lid : Nat) (ned : ℤ) (reason : String)
    (habs : ∀ l ∈ db.loans, l.id ≠ lid) :
    (∀ r ∈ get_loan_history db, ∃ h ∈ db.history, ∃ l ∈ db.loans,
        h.loan_id = l.id ∧ r = mkHistoryRow h l) ∧
    ((delete_loan lid reason db).2.history.length = db.history.length + 1 ∧
      get_loan_history (delete_loan lid reason db).2 = get_loan_history db) ∧
    ((update_loan_end_date lid ned reason db).2.history.length = db.history.length + 1 ∧
      get_loan_history (update_loan_end_date lid ned reason db).2 = get_loan_history db) := by
  have hfilter : db.loans.filter (fun l => lid = l.id) = [] := by
    rw [List.filter_eq_nil_iff]
    intro l hl
    simp only [decide_eq_true_eq]
    exact fun he => habs l hl he.symm
  refine ⟨?_, ⟨?_, ?_⟩, ⟨?_, ?_⟩⟩
  · intro r hr
    rw [mem_get_loan_history, mem_joinHistory] at hr
    exact hr
  · rw [delete_loan_history, List.length_append]
    rfl
  · have hjoin : joinHistory (delete_loan lid reason db).2 = joinHistory db := by
      unfold joinHistory
      rw [delete_loan_history, delete_loan_loans, update_map_id db.loans lid _ habs,
        List.flatMap_append]
      simp [hfilter]
    unfold get_loan_history
    rw [hjoin]
  · rw [update_loan_end_date_history, List.length_append]
    rfl
  · have hjoin : joinHistory (update_loan_end_date lid ned reason db).2 = joinHistory db := by
      unfold joinHistory
      rw [update_loan_end_date_history, update_loan_end_date_loans,
        update_map_id db.loans lid _ habs, List.flatMap_append]
      simp [hfilter]
    unfold get_loan_history
    rw [hjoin]

/-- Witness for C10: the absent id 2 on `db1`. -/
theorem history_join_omits_orphans_witness :
    (∀ r ∈ get_loan_history db1, ∃ h ∈ db1.history, ∃ l ∈ db1.loans,
        h.loan_id = l.id ∧ r = mkHistoryRow h l) ∧
    ((delete_loan 2 "gone" db1).2.history.length = db1.history.length + 1 ∧
      get_loan_history (delete_loan 2 "gone" db1).2 = get_loan_history db1) ∧
    ((update_loan_end_date 2 400 "gone" db1).2.history.length = db1.history.length + 1 ∧
      get_loan_history (update_loan_end_date 2 400 "gone" db1).2 = get_loan_history db1) :=
  history_join_omits_orphans db1 2 400 "gone" (by decide)

end LoanApp
